import Mathlib

/-!
Shallow embedding of the templating core of `config-db`
(`utils/templating/template.go`) and of the AWS cost fetcher
(`scrapers/aws/cost.go`).

Conventions of the embedding:
* Go `interface{}` values are modelled by the inductive `GoVal`; values that
  `encoding/json.Marshal` cannot serialize (functions, channels, ...) are the
  `unserializable` constructor.
* A Go `(string, error)` return value is a `String × Option String`
  (`none` = nil error); error messages are plain strings.
* `map[string]interface{}` is an association list `List (String × GoVal)`;
  iteration order of the Go map is fixed to the list order.
* The three engines (goja, text/template, antonmedv/expr) and the database /
  AWS SDK calls are external libraries: they enter the embedding as abstract
  operation bundles (`Engines`, `AwsOps`) so theorems quantify over their
  behaviour, while the control flow of `Template` and `FetchCosts` is
  translated from the source line by line.
-/

/-- A dynamic Go value (`interface{}`) as it appears in the environment map
and as exported from the engines. -/
inductive GoVal where
  | str (s : String)
  | num (n : Int)
  | boolean (b : Bool)
  | null
  | arr (xs : List GoVal)
  | obj (fs : List (String × GoVal))
  | unserializable (typeName : String)
  deriving Repr

/-- The environment argument of `Template`: `map[string]interface{}`. -/
abbrev Env := List (String × GoVal)

mutual

/-- Whether `encoding/json.Marshal` succeeds on this value. -/
def GoVal.serializable : GoVal → Bool
  | .str _ => true
  | .num _ => true
  | .boolean _ => true
  | .null => true
  | .arr xs => serializableList xs
  | .obj fs => serializableFields fs
  | .unserializable _ => false

def serializableList : List GoVal → Bool
  | [] => true
  | x :: xs => x.serializable && serializableList xs

def serializableFields : List (String × GoVal) → Bool
  | [] => true
  | (_, v) :: fs => v.serializable && serializableFields fs

end

/-- `data, _ := json.Marshal(environment)`: on failure `encoding/json`
returns a nil byte slice, modelled by `none`.  On success the bytes decode
back to the same structural tree, so the payload is the tree itself. -/
def jsonMarshal (environment : Env) : Option Env :=
  if serializableFields environment then some environment else none

/-- `json.Unmarshal(data, &unstructured)`: unmarshalling a nil byte slice
fails with `unexpected end of JSON input`; bytes produced by a successful
`json.Marshal` of a string-keyed map decode back into the same map. -/
def jsonUnmarshal : Option Env → Except String Env
  | none => .error "unexpected end of JSON input"
  | some t => .ok t

/-- `fmt.Sprint` on the dynamic values of the model (default Go formatting:
strings verbatim, integers in decimal, booleans as `true`/`false`). -/
def fmtSprint : GoVal → String
  | .str s => s
  | .num n => toString n
  | .boolean b => if b then "true" else "false"
  | .null => "<nil>"
  | .arr xs => "[" ++ String.intercalate " " (xs.map fun x => reprStr x) ++ "]"
  | .obj fs => "map[" ++ String.intercalate " " (fs.map fun kv => kv.1) ++ "]"
  | .unserializable t => "<" ++ t ++ ">"

/-- `strings.TrimSpace`: drop leading and trailing whitespace characters.
Defined over the character list so it evaluates by kernel reduction. -/
def trimSpace (s : String) : String :=
  ⟨((s.data.dropWhile Char.isWhitespace).reverse.dropWhile
      Char.isWhitespace).reverse⟩

/-- `errors.Wrapf(err, msg)` from `pkg/errors`: the message of the wrapped
error is `msg + ": " + err.Error()`. -/
def wrapf (err msg : String) : String := msg ++ ": " ++ err

/-- The `v1.Template` specification: three body fields, at most one of which
is meant to be populated. -/
structure TemplateSpec where
  Javascript : String
  Template : String
  Expression : String
  deriving Repr, DecidableEq

/-- The external engine operations used by `Template`:
goja (`gojaNew`, `vmSet`, `runString`, `export`, `exportTypeName`),
text/template with `text.GetTemplateFuncs()` pre-registered
(`tplParse`, `tplExecute`) and antonmedv/expr with the option and
environment builders from `flanksource/commons/text`
(`exprCompile`, `exprRun`). -/
structure Engines (VM JSVal Tpl Prog : Type) where
  gojaNew : Unit → VM
  vmSet : VM → String → GoVal → Except String VM
  runString : VM → String → Except String JSVal
  Export : JSVal → GoVal
  ExportTypeName : JSVal → String
  tplParse : String → Except String Tpl
  tplExecute : Tpl → Env → Except String String
  exprCompile : String → Env → Except String Prog
  exprRun : Prog → Env → Except String GoVal

/-- The binding loop of the javascript path:
`for k, v := range environment { if err := vm.Set(k, v); err != nil { ... } }`.
On the first failing binding it aborts with
`errors.Wrapf(err, "error setting %s", k)`. -/
def bindEnv (set : VM → String → GoVal → Except String VM) :
    VM → Env → Except String VM
  | vm, [] => .ok vm
  | vm, (k, v) :: rest =>
    match set vm k v with
    | .error err => .error (wrapf err ("error setting " ++ k))
    | .ok vm2 => bindEnv set vm2 rest

/-- `strings.Split(s, "\n")[0]`. -/
def firstLine (s : String) : String := (s.splitOn "\n").headD ""

/-- `Template(environment, template)` from `utils/templating/template.go`,
translated branch by branch. -/
def Template (E : Engines VM JSVal Tpl Prog) (environment : Env)
    (template : TemplateSpec) : String × Option String :=
  if template.Javascript ≠ "" then
    -- javascript
    let vm := E.gojaNew ()
    match bindEnv E.vmSet vm environment with
    | .error e => ("", some e)
    | .ok vm =>
      match E.runString vm template.Javascript with
      | .error err => ("", some (wrapf err "failed to run javascript"))
      | .ok vmOut =>
        match E.Export vmOut with
        | .str s => (s, none)
        | _ => ("", some ("failed to cast output to string; it is of type "
            ++ E.ExportTypeName vmOut))
  else if template.Template ≠ "" then
    -- gotemplate
    match E.tplParse template.Template with
    | .error e => ("", some e)
    | .ok tpl =>
      -- marshal data from interface to a string-keyed map; the error of
      -- json.Marshal is discarded (`data, _ :=`), a failed marshal leaves
      -- nil bytes which json.Unmarshal then rejects
      let data := jsonMarshal environment
      match jsonUnmarshal data with
      | .error e => ("", some e)
      | .ok unstructured =>
        match E.tplExecute tpl unstructured with
        | .error err => ("", some ("error executing template "
            ++ firstLine template.Template ++ ": " ++ err))
        | .ok buf => (trimSpace buf, none)
  else if template.Expression ≠ "" then
    -- exprv
    match E.exprCompile template.Expression environment with
    | .error e => ("", some e)
    | .ok program =>
      match E.exprRun program environment with
      | .error e => ("", some e)
      | .ok output => (fmtSprint output, none)
  else
    ("", none)

/-- State-passing variant of the binding loop: the iterated portion of the
environment list is threaded through and handed back, making explicit that
the loop only reads the map. -/
def bindEnvRun (set : VM → String → GoVal → Except String VM) :
    VM → Env → Except String VM × Env
  | vm, [] => (.ok vm, [])
  | vm, (k, v) :: rest =>
    match set vm k v with
    | .error err => (.error (wrapf err ("error setting " ++ k)), (k, v) :: rest)
    | .ok vm2 =>
      let r := bindEnvRun set vm2 rest
      (r.1, (k, v) :: r.2)

/-- State-passing variant of `Template`: the caller's environment map is
threaded through every step that touches it and returned alongside the
result.  The source contains no write to the map, so each branch hands the
environment back as it was received. -/
def TemplateRun (E : Engines VM JSVal Tpl Prog) (environment : Env)
    (template : TemplateSpec) : (String × Option String) × Env :=
  if template.Javascript ≠ "" then
    let vm := E.gojaNew ()
    match bindEnvRun E.vmSet vm environment with
    | (.error e, env2) => (("", some e), env2)
    | (.ok vm, env2) =>
      match E.runString vm template.Javascript with
      | .error err => (("", some (wrapf err "failed to run javascript")), env2)
      | .ok vmOut =>
        match E.Export vmOut with
        | .str s => ((s, none), env2)
        | _ => (("", some ("failed to cast output to string; it is of type "
            ++ E.ExportTypeName vmOut)), env2)
  else if template.Template ≠ "" then
    match E.tplParse template.Template with
    | .error e => (("", some e), environment)
    | .ok tpl =>
      let data := jsonMarshal environment
      match jsonUnmarshal data with
      | .error e => (("", some e), environment)
      | .ok unstructured =>
        match E.tplExecute tpl unstructured with
        | .error err => (("", some ("error executing template "
            ++ firstLine template.Template ++ ": " ++ err)), environment)
        | .ok buf => ((trimSpace buf, none), environment)
  else if template.Expression ≠ "" then
    match E.exprCompile template.Expression environment with
    | .error e => (("", some e), environment)
    | .ok program =>
      match E.exprRun program environment with
      | .error e => (("", some e), environment)
      | .ok output => ((fmtSprint output, none), environment)
  else
    (("", none), environment)

/-- The Athena cost query of `scrapers/aws/cost.go`; `$table` is substituted
with the configured database and table before execution. -/
def costQueryTemplate : String := "
    WITH
        max_end_date AS (
            SELECT MAX(line_item_usage_end_date) as end_date FROM $table
            WHERE line_item_resource_id = @id AND line_item_product_code = @product_code
        ),
        results AS (
            SELECT line_item_unblended_cost, line_item_usage_start_date FROM $table
            WHERE line_item_resource_id = @id AND line_item_product_code = @product_code
        )
    SELECT
        SUM(CASE WHEN line_item_usage_start_date >= (SELECT date_add('hour', -1, end_date) FROM max_end_date) THEN line_item_unblended_cost
            ELSE 0 END) as hourly,
        SUM(CASE WHEN line_item_usage_start_date >= (SELECT date_add('day', -1, end_date) FROM max_end_date) THEN line_item_unblended_cost
            ELSE 0 END) as daily,
        SUM(CASE WHEN line_item_usage_start_date >= (SELECT date_add('day', -7, end_date) FROM max_end_date) THEN line_item_unblended_cost
            ELSE 0 END) as weekly,
        SUM(CASE WHEN line_item_usage_start_date >= (SELECT date_add('day', -30, end_date) FROM max_end_date) THEN line_item_unblended_cost
            ELSE 0 END) as monthly
    FROM results
"

/-- `v1.AWS.CostReporting` configuration. -/
structure CostReporting where
  S3BucketPath : String
  Region : String
  Database : String
  Table : String
  deriving Repr, DecidableEq

/-- The slice of the `v1.AWS` scraper configuration used by `FetchCosts`. -/
structure AWSConfig where
  CostReporting : CostReporting
  deriving Repr, DecidableEq

/-- `productAttributes` from `scrapers/aws/cost.go`. -/
structure productAttributes where
  ResourceID : String
  ProductCode : String
  deriving Repr, DecidableEq

/-- `periodicCosts` from `scrapers/aws/cost.go`.  The Go fields are
`float64`; `FetchCosts` performs no arithmetic on them, so they are modelled
as rationals, of which only the zero value is ever constructed locally. -/
structure periodicCosts where
  Hourly : Rat
  Daily : Rat
  Weekly : Rat
  Monthly : Rat
  deriving Repr, DecidableEq

/-- The external operations invoked by `FetchCosts`: the in-package helpers
`getProductAttributes` (JSON inspection of the config item) and
`getAWSAthenaConfig` (credential lookup plus `athena.NewDefaultConfig`),
the driver name constant `athena.DriverName`, `sql.Open`, and the combined
`QueryRow(query, args...).Scan(&Hourly, &Daily, &Weekly, &Monthly)` call,
whose arguments are the query text and the two named parameters
`id` and `product_code`. -/
structure AwsOps (Ctx Item AthenaConf DB : Type) where
  getProductAttributes : Item → Except String productAttributes
  getAWSAthenaConfig : Ctx → AWSConfig → Except String AthenaConf
  driverName : String
  Stringify : AthenaConf → String
  sqlOpen : String → String → Except String DB
  queryRowScan : DB → String → String → String → Except String periodicCosts

/-- `FetchCosts(ctx, config, ci)` from `scrapers/aws/cost.go`, translated
branch by branch.  Note the scan branch: on a query/scan error the function
returns the zero `periodicCosts` together with a nil error
(`return periodicCosts{}, nil` in the source). -/
def FetchCosts (O : AwsOps Ctx Item AthenaConf DB) (ctx : Ctx)
    (config : AWSConfig) (ci : Item) : periodicCosts × Option String :=
  match O.getProductAttributes ci with
  | .error e => (⟨0, 0, 0, 0⟩, some e)
  | .ok attrs =>
    match O.getAWSAthenaConfig ctx config with
    | .error e => (⟨0, 0, 0, 0⟩, some e)
    | .ok athenaConf =>
      match O.sqlOpen O.driverName (O.Stringify athenaConf) with
      | .error e => (⟨0, 0, 0, 0⟩, some e)
      | .ok athenaDB =>
        let table := config.CostReporting.Database ++ "."
            ++ config.CostReporting.Table
        let query := costQueryTemplate.replace "$table" table
        match O.queryRowScan athenaDB query attrs.ResourceID attrs.ProductCode with
        | .error _ => (⟨0, 0, 0, 0⟩, none)
        | .ok costs => (costs, none)

/-- A concrete engine bundle over trivial carrier types, used to exercise
the theorems on closed inputs. -/
def unitEngines : Engines Unit Unit Unit Unit where
  gojaNew := fun _ => ()
  vmSet := fun vm _ _ => .ok vm
  runString := fun _ _ => .ok ()
  Export := fun _ => .str "out"
  ExportTypeName := fun _ => "String"
  tplParse := fun _ => .ok ()
  tplExecute := fun _ _ => .ok "rendered"
  exprCompile := fun _ _ => .ok ()
  exprRun := fun _ _ => .ok (.num 5)

/-- C3: if all three fields of the template specification are empty,
`Template` returns the empty string and a nil error; quantification over
the engine bundle shows no engine behaviour can influence the result. -/
theorem empty_spec_returns_empty_no_engine (E : Engines VM JSVal Tpl Prog)
    (env : Env) : Template E env ⟨"", "", ""⟩ = ("", none) := rfl

/-- C2: engine selection is first-match-wins over the order
Javascript, Template, Expression; the bodies of lower-priority fields and
even the behaviour of the lower-priority engines have no effect on the
result. -/
theorem engine_precedence_first_match (E : Engines VM JSVal Tpl Prog)
    (env : Env) (js tp ex : String) :
    (js ≠ "" → ∀ (p : String → Except String Tpl)
        (q : Tpl → Env → Except String String)
        (r : String → Env → Except String Prog)
        (w : Prog → Env → Except String GoVal),
      Template {E with
          tplParse := p
          tplExecute := q
          exprCompile := r
          exprRun := w} env ⟨js, tp, ex⟩
        = Template E env ⟨js, "", ""⟩) ∧
    (js = "" → tp ≠ "" → ∀ (r : String → Env → Except String Prog)
        (w : Prog → Env → Except String GoVal),
      Template {E with
          exprCompile := r
          exprRun := w} env ⟨js, tp, ex⟩
        = Template E env ⟨"", tp, ""⟩) := by
  constructor
  · intro h p q r w
    simp [Template, h]
  · intro h h2 r w
    subst h
    simp [Template, h2]

/-- C2 witness: both precedence conjuncts at concrete inputs. -/
theorem engine_precedence_first_match_witness :
    Template {unitEngines with
        tplParse := unitEngines.tplParse
        tplExecute := unitEngines.tplExecute
        exprCompile := unitEngines.exprCompile
        exprRun := unitEngines.exprRun} [] ⟨"1 + 1", "body", "a + b"⟩
      = Template unitEngines [] ⟨"1 + 1", "", ""⟩ ∧
    Template {unitEngines with
        exprCompile := unitEngines.exprCompile
        exprRun := unitEngines.exprRun} [] ⟨"", "body", "a + b"⟩
      = Template unitEngines [] ⟨"", "body", ""⟩ :=
  ⟨(engine_precedence_first_match unitEngines [] "1 + 1" "body" "a + b").1
      (by decide) unitEngines.tplParse unitEngines.tplExecute
      unitEngines.exprCompile unitEngines.exprRun,
   (engine_precedence_first_match unitEngines [] "" "body" "a + b").2
      rfl (by decide) unitEngines.exprCompile unitEngines.exprRun⟩

/-- C6: whenever `Template` returns a non-nil error, the string component
of the result is empty — no partial output accompanies an error. -/
theorem error_implies_empty_string (E : Engines VM JSVal Tpl Prog)
    (env : Env) (t : TemplateSpec) (e : String) :
    (Template E env t).2 = some e → Template E env t = ("", some e) := by
  unfold Template
  split
  · cases hb : bindEnv E.vmSet (E.gojaNew ()) env with
    | error e1 => simp_all
    | ok vm1 =>
      cases hr : E.runString vm1 t.Javascript with
      | error er => simp_all
      | ok out => cases hx : E.Export out <;> simp_all
  · split
    · cases hp : E.tplParse t.Template with
      | error e1 => simp_all
      | ok tpl =>
        cases hu : jsonUnmarshal (jsonMarshal env) with
        | error e1 => simp_all
        | ok u => cases hx : E.tplExecute tpl u <;> simp_all
    · split
      · cases hc : E.exprCompile t.Expression env with
        | error e1 => simp_all
        | ok p => cases hr2 : E.exprRun p env <;> simp_all
      · simp

/-- C6 witness: a failing javascript run yields `("", some _)`. -/
theorem error_implies_empty_string_witness :
    Template {unitEngines with runString := fun _ _ => .error "boom"}
        [] ⟨"x", "", ""⟩
      = ("", some "failed to run javascript: boom") :=
  error_implies_empty_string
    {unitEngines with runString := fun _ _ => .error "boom"}
    [] ⟨"x", "", ""⟩ "failed to run javascript: boom" rfl

/-- C8: on the expression path a successful evaluation result is converted
with `fmt.Sprint` to its default string representation (in particular for
the scalar constructors), while any compilation or evaluation error is
returned unchanged with an empty string result. -/
theorem expr_path_stringifies_and_propagates (E : Engines VM JSVal Tpl Prog)
    (env : Env) (t : TemplateSpec) (hjs : t.Javascript = "")
    (ht : t.Template = "") (he : t.Expression ≠ "") :
    (∀ e, E.exprCompile t.Expression env = .error e →
      Template E env t = ("", some e)) ∧
    (∀ p e, E.exprCompile t.Expression env = .ok p →
      E.exprRun p env = .error e → Template E env t = ("", some e)) ∧
    (∀ p v, E.exprCompile t.Expression env = .ok p →
      E.exprRun p env = .ok v → Template E env t = (fmtSprint v, none)) := by
  refine ⟨fun e h1 => ?_, fun p e h1 h2 => ?_, fun p v h1 h2 => ?_⟩
  · simp [Template, hjs, ht, he, h1]
  · simp [Template, hjs, ht, he, h1, h2]
  · simp [Template, hjs, ht, he, h1, h2]

/-- C8 witness: a numeric expression result is stringified with default
formatting. -/
theorem expr_path_stringifies_and_propagates_witness :
    Template unitEngines [("a", .num 2), ("b", .num 3)] ⟨"", "", "a + b"⟩
      = ("5", none) :=
  (expr_path_stringifies_and_propagates unitEngines
      [("a", .num 2), ("b", .num 3)] ⟨"", "", "a + b"⟩
      rfl rfl (by decide)).2.2 () (.num 5) rfl rfl

/-- C1: on the template path, if the environment cannot be serialized
(`json.Marshal` fails, leaving nil bytes that `json.Unmarshal` rejects),
`Template` returns an error with empty output, and the result does not
depend on the template executor — no rendering against a partial or empty
data tree takes place. -/
theorem marshal_failure_is_fatal (E : Engines VM JSVal Tpl Prog) (env : Env)
    (t : TemplateSpec) (hjs : t.Javascript = "") (ht : t.Template ≠ "")
    (hm : jsonMarshal env = none) :
    (∃ e, Template E env t = ("", some e)) ∧
    (∀ g : Tpl → Env → Except String String,
      Template {E with tplExecute := g} env t = Template E env t) := by
  constructor
  · cases hp : E.tplParse t.Template with
    | error e1 => exact ⟨e1, by simp [Template, hjs, ht, hp]⟩
    | ok tpl =>
      exact ⟨"unexpected end of JSON input",
        by simp [Template, hjs, ht, hp, hm, jsonUnmarshal]⟩
  · intro g
    cases hp : E.tplParse t.Template with
    | error e1 => simp [Template, hjs, ht, hp]
    | ok tpl => simp [Template, hjs, ht, hp, hm, jsonUnmarshal]

/-- C1 witness: an environment holding a value without a JSON
representation makes the template path fail before execution, even under a
hijacked executor. -/
theorem marshal_failure_is_fatal_witness :
    (∃ e, Template unitEngines [("f", GoVal.unserializable "func()")]
      ⟨"", "x", ""⟩ = ("", some e)) ∧
    Template {unitEngines with tplExecute := fun _ _ => .ok "HIJACKED"}
        [("f", GoVal.unserializable "func()")] ⟨"", "x", ""⟩
      = Template unitEngines [("f", GoVal.unserializable "func()")]
        ⟨"", "x", ""⟩ := by
  have h := marshal_failure_is_fatal unitEngines
    [("f", GoVal.unserializable "func()")] ⟨"", "x", ""⟩ rfl (by decide) rfl
  exact ⟨h.1, h.2 (fun _ _ => .ok "HIJACKED")⟩

/-- C4: on the javascript path, a successful run whose exported value is
not a native string yields the error naming the exported type, with empty
string output and no stringification of the value. -/
theorem js_nonstring_export_is_error (E : Engines VM JSVal Tpl Prog)
    (env : Env) (t : TemplateSpec) (hjs : t.Javascript ≠ "")
    (vm1 : VM) (hb : bindEnv E.vmSet (E.gojaNew ()) env = .ok vm1)
    (out : JSVal) (hr : E.runString vm1 t.Javascript = .ok out)
    (hns : ∀ s, E.Export out ≠ .str s) :
    Template E env t
      = ("", some ("failed to cast output to string; it is of type "
          ++ E.ExportTypeName out)) := by
  cases hx : E.Export out with
  | str s => exact absurd hx (hns s)
  | _ => simp [Template, hjs, hb, hr, hx]

/-- C4 witness: a script exporting the number 3 of type `int64`. -/
theorem js_nonstring_export_is_error_witness :
    Template {unitEngines with
        Export := fun _ => .num 3
        ExportTypeName := fun _ => "int64"} [] ⟨"3", "", ""⟩
      = ("", some "failed to cast output to string; it is of type int64") :=
  js_nonstring_export_is_error
    {unitEngines with
      Export := fun _ => .num 3
      ExportTypeName := fun _ => "int64"}
    [] ⟨"3", "", ""⟩ (by decide) () rfl () rfl (fun s h => by cases h)

/-- Shape of an error produced by the binding loop: it wraps the underlying
error with `error setting <key>` for a key of the environment. -/
theorem bindEnv_error_shape (set : VM → String → GoVal → Except String VM) :
    ∀ (vm : VM) (l : Env) (e : String), bindEnv set vm l = .error e →
      ∃ k u, k ∈ l.map Prod.fst ∧ e = wrapf u ("error setting " ++ k) := by
  intro vm l
  induction l generalizing vm with
  | nil => intro e h; simp [bindEnv] at h
  | cons kv rest ih =>
    intro e h
    rcases kv with ⟨k, v⟩
    rw [bindEnv] at h
    cases hs : set vm k v with
    | error u =>
      rw [hs] at h
      refine ⟨k, u, by simp, ?_⟩
      cases h
      rfl
    | ok vm2 =>
      rw [hs] at h
      obtain ⟨k2, u2, hk2, he2⟩ := ih vm2 e h
      exact ⟨k2, u2, by simp [hk2], he2⟩

/-- C5: on the javascript path, if binding the environment into the
interpreter fails, `Template` aborts with an error wrapping the offending
key, and the script body is never executed: the result is the same for
every possible `runString` behaviour. -/
theorem js_binding_failure_aborts (E : Engines VM JSVal Tpl Prog)
    (env : Env) (t : TemplateSpec) (hjs : t.Javascript ≠ "") (e : String)
    (hb : bindEnv E.vmSet (E.gojaNew ()) env = .error e) :
    (∃ k u, k ∈ env.map Prod.fst ∧ e = wrapf u ("error setting " ++ k)) ∧
    (∀ f : VM → String → Except String JSVal,
      Template {E with runString := f} env t = ("", some e)) := by
  refine ⟨bindEnv_error_shape E.vmSet (E.gojaNew ()) env e hb, fun f => ?_⟩
  simp [Template, hjs, hb]

/-- C5 witness: a failing `vm.Set` on key `a` aborts with the wrapped key
error, under an arbitrary script runner. -/
theorem js_binding_failure_aborts_witness :
    (∃ k u, k ∈ ([("a", GoVal.null)] : Env).map Prod.fst ∧
      "error setting a: boom" = wrapf u ("error setting " ++ k)) ∧
    Template {{unitEngines with vmSet := fun _ _ _ => .error "boom"} with
        runString := fun _ _ => .ok ()} [("a", GoVal.null)] ⟨"x", "", ""⟩
      = ("", some "error setting a: boom") := by
  have h := js_binding_failure_aborts
    {unitEngines with vmSet := fun _ _ _ => .error "boom"}
    [("a", GoVal.null)] ⟨"x", "", ""⟩ (by decide) "error setting a: boom" rfl
  exact ⟨h.1, h.2 (fun _ _ => .ok ())⟩

/-- C7: on the template path, a successful parse and execution returns the
rendered buffer with surrounding whitespace trimmed and a nil error. -/
theorem template_path_trims_output (E : Engines VM JSVal Tpl Prog)
    (env : Env) (t : TemplateSpec) (hjs : t.Javascript = "")
    (ht : t.Template ≠ "") (tpl : Tpl)
    (hp : E.tplParse t.Template = .ok tpl) (tree : Env)
    (hm : jsonMarshal env = some tree) (buf : String)
    (he : E.tplExecute tpl tree = .ok buf) :
    Template E env t = (trimSpace buf, none) := by
  simp [Template, hjs, ht, hp, hm, jsonUnmarshal, he]

/-- C7 witness: environment `name = Ann` with the body
`"  Hello \x7b\x7b.name\x7d\x7d  \n"` rendering to `"  Hello Ann  \n"`
yields `"Hello Ann"` with no error. -/
theorem template_path_trims_output_witness :
    Template {unitEngines with tplExecute := fun _ _ => .ok "  Hello Ann  \n"}
        [("name", GoVal.str "Ann")] ⟨"", "  Hello \x7b\x7b.name\x7d\x7d  \n", ""⟩
      = ("Hello Ann", none) := by
  have h := template_path_trims_output
    {unitEngines with tplExecute := fun _ _ => .ok "  Hello Ann  \n"}
    [("name", GoVal.str "Ann")] ⟨"", "  Hello \x7b\x7b.name\x7d\x7d  \n", ""⟩
    rfl (by decide) () rfl [("name", GoVal.str "Ann")] rfl "  Hello Ann  \n" rfl
  rw [h]
  decide

/-- The state-passing binding loop returns the environment it iterated,
and its result component agrees with `bindEnv`. -/
theorem bindEnvRun_eq (set : VM → String → GoVal → Except String VM) :
    ∀ (vm : VM) (l : Env), bindEnvRun set vm l = (bindEnv set vm l, l) := by
  intro vm l
  induction l generalizing vm with
  | nil => rfl
  | cons kv rest ih =>
    rcases kv with ⟨k, v⟩
    simp only [bindEnvRun, bindEnv]
    cases hs : set vm k v with
    | error u => simp
    | ok vm2 => simp [ih]

/-- C9: the caller's environment is read-only: the state-passing rendering
returns the environment exactly as received, on every path and for every
engine behaviour, alongside the usual `Template` result. -/
theorem environment_unchanged (E : Engines VM JSVal Tpl Prog) (env : Env)
    (t : TemplateSpec) : TemplateRun E env t = (Template E env t, env) := by
  rcases eq_or_ne t.Javascript "" with h1 | h1
  · rcases eq_or_ne t.Template "" with h2 | h2
    · rcases eq_or_ne t.Expression "" with h3 | h3
      · simp [TemplateRun, Template, h1, h2, h3]
      · cases hc : E.exprCompile t.Expression env with
        | error e1 => simp [TemplateRun, Template, h1, h2, h3, hc]
        | ok p =>
          cases hr : E.exprRun p env <;>
            simp [TemplateRun, Template, h1, h2, h3, hc, hr]
    · cases hp : E.tplParse t.Template with
      | error e1 => simp [TemplateRun, Template, h1, h2, hp]
      | ok tpl =>
        cases hu : jsonUnmarshal (jsonMarshal env) with
        | error e1 => simp [TemplateRun, Template, h1, h2, hp, hu]
        | ok u =>
          cases hx : E.tplExecute tpl u <;>
            simp [TemplateRun, Template, h1, h2, hp, hu, hx]
  · cases hb : bindEnv E.vmSet (E.gojaNew ()) env with
    | error e1 => simp [TemplateRun, Template, h1, hb, bindEnvRun_eq]
    | ok vm1 =>
      cases hr : E.runString vm1 t.Javascript with
      | error er => simp [TemplateRun, Template, h1, hb, hr, bindEnvRun_eq]
      | ok out =>
        cases hx : E.Export out <;>
          simp [TemplateRun, Template, h1, hb, hr, hx, bindEnvRun_eq]

/-- C10: when the product attributes, the Athena configuration and the
database handle are all obtained but the query-row scan fails, `FetchCosts`
returns the zero-valued `periodicCosts` with a nil error — the scan failure
is swallowed. -/
theorem fetch_costs_scan_failure_swallowed (O : AwsOps Ctx Item AthenaConf DB)
    (ctx : Ctx) (config : AWSConfig) (ci : Item)
    (attrs : productAttributes) (ha : O.getProductAttributes ci = .ok attrs)
    (conf : AthenaConf) (hc : O.getAWSAthenaConfig ctx config = .ok conf)
    (db : DB) (ho : O.sqlOpen O.driverName (O.Stringify conf) = .ok db)
    (e : String)
    (hs : O.queryRowScan db
        (costQueryTemplate.replace "$table"
          (config.CostReporting.Database ++ "." ++ config.CostReporting.Table))
        attrs.ResourceID attrs.ProductCode = .error e) :
    FetchCosts O ctx config ci = (⟨0, 0, 0, 0⟩, none) := by
  simp [FetchCosts, ha, hc, ho, hs]

/-- A concrete operation bundle for `FetchCosts` whose scan step fails. -/
def scanFailOps : AwsOps Unit Unit Unit Unit where
  getProductAttributes := fun _ => .ok ⟨"i-012", "AmazonEC2"⟩
  getAWSAthenaConfig := fun _ _ => .ok ()
  driverName := "awsathena"
  Stringify := fun _ => ""
  sqlOpen := fun _ _ => .ok ()
  queryRowScan := fun _ _ _ _ => .error "sql: Scan error"

/-- C10 witness: a failing scan on a concrete configuration yields the
zero costs and no error. -/
theorem fetch_costs_scan_failure_swallowed_witness :
    FetchCosts scanFailOps ()
        ⟨⟨"s3://bucket/path", "us-east-1", "costdb", "costtable"⟩⟩ ()
      = (⟨0, 0, 0, 0⟩, none) :=
  fetch_costs_scan_failure_swallowed scanFailOps ()
    ⟨⟨"s3://bucket/path", "us-east-1", "costdb", "costtable"⟩⟩ ()
    ⟨"i-012", "AmazonEC2"⟩ rfl () rfl () rfl "sql: Scan error" rfl
